import Mathlib

/-!
Verification development for the WhatsApp Checkout API sample
(`src/elements.py`, `src/checkout_base.py`).

The Python code is shallowly embedded: machine-free Python integers become
`Int`/`Nat`, fallible code returns `Except PyError`, the network side effects
(`requests.get`/`requests.post`) become an explicit `List NetEvent` trace
paired with the result, and the process-wide phone-number cache
(`CheckoutBase._phone_number_to_id_map`, an insertion-ordered dict) becomes an
association list threaded through the functions.  The abstract credential
methods (`get_access_token`, `get_app_secret`, `get_waba`,
`get_payment_configuration`) become plain parameters.  JSON values navigated
by `handle_webhook_call` after `json.loads` become the inductive `JVal`.
HMAC-SHA256 (`hmac` / `hashlib` from the Python standard library) is
implemented executably over `Nat` bytes so that `verify_webhook` is the real
function.
-/

/-- Python exceptions raised by the embedded code.  Each constructor
corresponds to one distinct `raise` site / runtime error of the source:
the two `ValueError`s of `Amount.__init__`, the offset-mismatch and
header `ValueError`s of `send_order_details_msg`, the generic `Exception`
of `_load_phone_numbers`, and the dynamic `KeyError` / `IndexError` /
`TypeError` / `AttributeError` of dict, list and attribute access. -/
inductive PyError where
  | offsetMustBe100
  | valueMustBeMultipleOf100
  | itemOffsetMismatch
  | invalidHeaderType (t : String)
  | noPhoneNumbers
  | keyError (k : String)
  | indexError
  | typeError
  | attributeError
deriving DecidableEq

/-- A JSON value, the result of `json.loads` on a webhook payload. -/
inductive JVal where
  | null
  | bool (b : Bool)
  | num (n : Int)
  | str (s : String)
  | arr (elems : List JVal)
  | obj (fields : List (String × JVal))

/-- Observable network interactions of the embedded code, in order:
the `GET .../phone_numbers` of `_load_phone_numbers`, the
`POST .../messages` of `send_order_details_msg`, and the
`GET .../payments/...` of `get_payment_status`. -/
inductive NetEvent where
  | directoryFetch
  | messageSend (phone_number_id recipient : String)
  | paymentStatusQuery (phone_number_id payment_configuration : String) (reference_id : JVal)

/-- Boolean check on `List Char` used to embed `str.startswith`. -/
def strStartsWith : List Char → List Char → Bool
  | _, [] => true
  | [], _ :: _ => false
  | c :: cs, p :: ps => decide (c = p) && strStartsWith cs ps

/-- Embedding of Python `s.removeprefix(p)`: drops `p` from the front of `s`
when `s` starts with `p`, otherwise returns `s` unchanged. -/
def removeprefixPy (s p : String) : String :=
  if strStartsWith s.data p.data = true then String.mk (s.data.drop p.data.length) else s

/-- Python truthiness of an optional string: `None` and `""` are falsy. -/
def strTruthy : Option String → Bool
  | none => false
  | some s => !(decide (s = ""))

/-! ## SHA-256 and HMAC-SHA256 over `Nat` bytes

Executable model of `hmac.new(secret, payload, hashlib.sha256).hexdigest()`
used by `CheckoutBase.verify_webhook`.  32-bit words are `Nat` values reduced
mod `2 ^ 32` after every arithmetic step. -/

def w32 : Nat := 4294967296

/-- Rotate a 32-bit word right by `n` bits. -/
def rotr (n x : Nat) : Nat := ((x >>> n) ||| (x <<< (32 - n))) % w32

def shaCh (x y z : Nat) : Nat := (x &&& y) ^^^ ((x ^^^ 4294967295) &&& z)

def shaMaj (x y z : Nat) : Nat := (x &&& y) ^^^ (x &&& z) ^^^ (y &&& z)

def bigSigma0 (x : Nat) : Nat := rotr 2 x ^^^ rotr 13 x ^^^ rotr 22 x

def bigSigma1 (x : Nat) : Nat := rotr 6 x ^^^ rotr 11 x ^^^ rotr 25 x

def smallSigma0 (x : Nat) : Nat := rotr 7 x ^^^ rotr 18 x ^^^ (x >>> 3)

def smallSigma1 (x : Nat) : Nat := rotr 17 x ^^^ rotr 19 x ^^^ (x >>> 10)

/-- The eight-word SHA-256 working state. -/
structure Hash8 where
  a : Nat
  b : Nat
  c : Nat
  d : Nat
  e : Nat
  f : Nat
  g : Nat
  h : Nat

/-- The eight SHA-256 initial hash words (FIPS 180-4, in decimal). -/
def initHash : Hash8 :=
  ⟨1779033703, 3144134277, 1013904242, 2773480762,
   1359893119, 2600822924, 528734635, 1541459225⟩

/-- The 64 SHA-256 round constants (FIPS 180-4, in decimal). -/
def kConstants : List Nat :=
  [1116352408, 1899447441, 3049323471, 3921009573, 961987163, 1508970993,
   2453635748, 2870763221, 3624381080, 310598401, 607225278, 1426881987,
   1925078388, 2162078206, 2614888103, 3248222580, 3835390401, 4022224774,
   264347078, 604807628, 770255983, 1249150122, 1555081692, 1996064986,
   2554220882, 2821834349, 2952996808, 3210313671, 3336571891, 3584528711,
   113926993, 338241895, 666307205, 773529912, 1294757372, 1396182291,
   1695183700, 1986661051, 2177026350, 2456956037, 2730485921, 2820302411,
   3259730800, 3345764771, 3516065817, 3600352804, 4094571909, 275423344,
   430227734, 506948616, 659060556, 883997877, 958139571, 1322822218,
   1537002063, 1747873779, 1955562222, 2024104815, 2227730452, 2361852424,
   2428436474, 2756734187, 3204031479, 3329325298]

/-- Extend the 16 block words to the 64-word message schedule.  The
accumulator holds the schedule so far in reverse order. -/
def extendSchedule : Nat → List Nat → List Nat
  | 0, acc => acc.reverse
  | n + 1, acc =>
    let nw := (acc.getD 15 0 + smallSigma0 (acc.getD 14 0) + acc.getD 6 0 +
      smallSigma1 (acc.getD 1 0)) % w32
    extendSchedule n (nw :: acc)

/-- One SHA-256 round. -/
def roundStep (st : Hash8) (kw : Nat × Nat) : Hash8 :=
  let t1 := (st.h + bigSigma1 st.e + shaCh st.e st.f st.g + kw.1 + kw.2) % w32
  let t2 := (bigSigma0 st.a + shaMaj st.a st.b st.c) % w32
  { a := (t1 + t2) % w32, b := st.a, c := st.b, d := st.c,
    e := (st.d + t1) % w32, f := st.e, g := st.f, h := st.g }

/-- Compress one 16-word block into the running hash state. -/
def compressBlock (st : Hash8) (block : List Nat) : Hash8 :=
  let ws := extendSchedule 48 block.reverse
  let fin := (kConstants.zip ws).foldl roundStep st
  { a := (st.a + fin.a) % w32, b := (st.b + fin.b) % w32,
    c := (st.c + fin.c) % w32, d := (st.d + fin.d) % w32,
    e := (st.e + fin.e) % w32, f := (st.f + fin.f) % w32,
    g := (st.g + fin.g) % w32, h := (st.h + fin.h) % w32 }

/-- Big-endian byte encoding of `v` in `n` bytes. -/
def toBytesBE : Nat → Nat → List Nat
  | 0, _ => []
  | n + 1, v => toBytesBE n (v >>> 8) ++ [v &&& 255]

/-- SHA-256 padding: append `0x80`, zero bytes to 56 mod 64, then the bit
length in 8 big-endian bytes. -/
def sha256Pad (msg : List Nat) : List Nat :=
  msg ++ [128] ++ List.replicate ((119 - msg.length % 64) % 64) 0 ++ toBytesBE 8 (8 * msg.length)

/-- Group bytes into big-endian 32-bit words. -/
def bytesToWords : List Nat → List Nat
  | b0 :: b1 :: b2 :: b3 :: rest =>
    ((b0 <<< 24) ||| (b1 <<< 16) ||| (b2 <<< 8) ||| b3) :: bytesToWords rest
  | _ => []

/-- Split a word list into 16-word blocks (fuel-based so that it reduces in
the kernel). -/
def chunkWordsFuel : Nat → List Nat → List (List Nat)
  | 0, _ => []
  | _, [] => []
  | fuel + 1, word :: rest => (word :: rest.take 15) :: chunkWordsFuel fuel (rest.drop 15)

def chunkWords (ws : List Nat) : List (List Nat) := chunkWordsFuel ws.length ws

/-- The final SHA-256 state of a byte message. -/
def sha256Words (msg : List Nat) : Hash8 :=
  (chunkWords (bytesToWords (sha256Pad msg))).foldl compressBlock initHash

/-- SHA-256 digest of a byte message, as eight 32-bit words. -/
def sha256 (msg : List Nat) : List Nat :=
  [(sha256Words msg).a, (sha256Words msg).b, (sha256Words msg).c, (sha256Words msg).d,
   (sha256Words msg).e, (sha256Words msg).f, (sha256Words msg).g, (sha256Words msg).h]

/-- Lower-case hex digit for a nibble. -/
def hexChar (n : Nat) : Char :=
  if n < 10 then Char.ofNat (48 + n) else if n < 16 then Char.ofNat (87 + n) else '0'

/-- Eight hex characters of one 32-bit word. -/
def wordToHex (w : Nat) : List Char :=
  [hexChar ((w >>> 28) % 16), hexChar ((w >>> 24) % 16), hexChar ((w >>> 20) % 16),
   hexChar ((w >>> 16) % 16), hexChar ((w >>> 12) % 16), hexChar ((w >>> 8) % 16),
   hexChar ((w >>> 4) % 16), hexChar (w % 16)]

def hexOfWords (ws : List Nat) : List Char :=
  ws.foldr (fun w acc => wordToHex w ++ acc) []

def wordsToBytesBE (ws : List Nat) : List Nat :=
  ws.foldr (fun w acc => toBytesBE 4 w ++ acc) []

/-- UTF-8 encoding of one code point (Python `str.encode("utf-8")`). -/
def utf8EncodeChar (c : Char) : List Nat :=
  let n := c.toNat
  if n < 128 then [n]
  else if n < 2048 then [192 ||| (n >>> 6), 128 ||| (n &&& 63)]
  else if n < 65536 then
    [224 ||| (n >>> 12), 128 ||| ((n >>> 6) &&& 63), 128 ||| (n &&& 63)]
  else
    [240 ||| (n >>> 18), 128 ||| ((n >>> 12) &&& 63), 128 ||| ((n >>> 6) &&& 63), 128 ||| (n &&& 63)]

def strToBytes (s : String) : List Nat :=
  s.data.foldr (fun c acc => utf8EncodeChar c ++ acc) []

/-- Key preprocessing of HMAC (RFC 2104, block size 64): long keys are
hashed, then the key is zero-padded to the block size. -/
def hmacKeyBlock (key : List Nat) : List Nat :=
  let k0 := if 64 < key.length then wordsToBytesBE (sha256 key) else key
  k0 ++ List.replicate (64 - k0.length) 0

/-- HMAC-SHA256 of a byte message, as eight 32-bit words. -/
def hmacSha256 (key msg : List Nat) : List Nat :=
  sha256 ((hmacKeyBlock key).map (fun b => b ^^^ 92) ++
    wordsToBytesBE (sha256 ((hmacKeyBlock key).map (fun b => b ^^^ 54) ++ msg)))

/-- `hmac.new(app_secret.encode("utf-8"), payload.encode("utf-8"),
hashlib.sha256).hexdigest()` from `verify_webhook`. -/
def hmacSha256Hex (app_secret payload : String) : String :=
  String.mk (hexOfWords (hmacSha256 (strToBytes app_secret) (strToBytes payload)))

/-! ## `src/elements.py` -/

/-- `VALUE_OFFSET = 100`. -/
def VALUE_OFFSET : Int := 100

/-- The `Amount` record: `value` and `offset` as stored on a constructed
Python `Amount` object. -/
structure Amount where
  value : Int
  offset : Int
deriving DecidableEq

/-- `Amount.__init__`: rejects an offset other than `VALUE_OFFSET` and a
value that is not a multiple of `VALUE_OFFSET`, otherwise stores both. -/
def Amount.init (value offset : Int) : Except PyError Amount :=
  if offset ≠ VALUE_OFFSET then .error .offsetMustBe100
  else if value % VALUE_OFFSET ≠ 0 then .error .valueMustBeMultipleOf100
  else .ok { value := value, offset := offset }

/-- The `Header` dataclass. -/
structure Header where
  type : String
  text : Option String := none
  image_link : Option String := none
deriving DecidableEq

/-- The `Address` dataclass. -/
structure Address where
  address_line1 : String
  city : String
  zone_code : String
  postal_code : String
  country_code : String
  address_line2 : Option String := none
deriving DecidableEq

/-- The `Item` dataclass. -/
structure Item where
  name : String
  amount : Amount
  quantity : Int
  sale_amount : Option Amount := none
  retailer_id : Option String := none
  image_link : Option String := none
  country_of_origin : Option String := none
  importer_name : Option String := none
  importer_address : Option Address := none
deriving DecidableEq

/-! ## Phone directory (`_load_phone_numbers`, `_get_sender_phone_number_id`) -/

/-- Lookup in an insertion-ordered dict modelled as an association list. -/
def dictGet (m : List (String × String)) (k : String) : Option String :=
  (m.find? (fun p => decide (p.1 = k))).map (fun p => p.2)

/-- Python dict assignment `m[k] = v`: updates in place when the key exists,
otherwise appends (insertion order preserved). -/
def dictInsert (m : List (String × String)) (k v : String) : List (String × String) :=
  if (m.find? (fun p => decide (p.1 = k))).isSome then
    m.map (fun p => if decide (p.1 = k) = true then (k, v) else p)
  else m ++ [(k, v)]

/-- Normalization of a display phone number: keep decimal digits only. -/
def normalize_phone (s : String) : String :=
  String.mk (s.data.filter (fun c => "0123456789".data.contains c))

/-- `_load_phone_numbers`: the directory response `dirData` is the parsed
`data` list of `(display_phone_number, id)` pairs of a successful (HTTP 200)
response — the raise on a non-200 transport response is outside the model.
An empty list raises, a non-empty one is folded into the cache. -/
def _load_phone_numbers (cache dirData : List (String × String)) :
    Except PyError (List (String × String)) :=
  match dirData with
  | [] => .error .noPhoneNumbers
  | _ :: _ => .ok (dirData.foldl (fun m d => dictInsert m (normalize_phone d.1) d.2) cache)

/-- `_get_sender_phone_number_id`: lazily loads the directory when the cache
is empty (one `directoryFetch` network event), then subscripts the map
(`KeyError` when the number is absent).  Returns the resolved id and the
possibly-updated cache. -/
def _get_sender_phone_number_id (cache dirData : List (String × String))
    (phone_number : String) :
    List NetEvent × Except PyError (String × List (String × String)) :=
  match cache with
  | [] =>
    ([.directoryFetch],
      match _load_phone_numbers cache dirData with
      | .error e => .error e
      | .ok m =>
        match dictGet m phone_number with
        | some pid => .ok (pid, m)
        | none => .error (.keyError phone_number))
  | _ :: _ =>
    ([],
      match dictGet cache phone_number with
      | some pid => .ok (pid, cache)
      | none => .error (.keyError phone_number))

/-! ## `send_order_details_msg` (order payload builder + dispatch) -/

/-- The effective amount of an item in the loop of `send_order_details_msg`:
`sale_amount` when present (a constructed `Amount` is always truthy), else
`amount`. -/
def effective_amount (item : Item) : Amount :=
  match item.sale_amount with
  | some a => a
  | none => item.amount

/-- One entry of the emitted `order.items` list: required fields plus the
optional fields that the loop inserts only when truthy. -/
structure RenderedItem where
  name : String
  amount : Amount
  quantity : Int
  sale_amount : Option Amount
  retailer_id : Option String
  image_link : Option String
  country_of_origin : Option String
  importer_name : Option String
  importer_address : Option Address
deriving DecidableEq

/-- The per-item dict built at the top of the loop body (conditional key
insertion for the optional string fields, following Python truthiness). -/
def renderItem (item : Item) : RenderedItem :=
  { name := item.name
    amount := item.amount
    quantity := item.quantity
    sale_amount := item.sale_amount
    retailer_id := if strTruthy item.retailer_id = true then item.retailer_id else none
    image_link := if strTruthy item.image_link = true then item.image_link else none
    country_of_origin :=
      if strTruthy item.country_of_origin = true then item.country_of_origin else none
    importer_name := if strTruthy item.importer_name = true then item.importer_name else none
    importer_address := item.importer_address }

/-- The item loop of `send_order_details_msg`: renders each item, raises
`ValueError` when an item's effective amount has a different offset from the
order offset, and accumulates `total += am.value * item.quantity`. -/
def itemLoop (offset : Int) : List Item → Int → Except PyError (Int × List RenderedItem)
  | [], total => .ok (total, [])
  | item :: rest, total =>
    if (effective_amount item).offset ≠ offset then .error .itemOffsetMismatch
    else
      match itemLoop offset rest (total + (effective_amount item).value * item.quantity) with
      | .error e => .error e
      | .ok (t, its) => .ok (t, renderItem item :: its)

/-- The emitted `tax` / `shipping` block: the amount's value paired with the
order offset and an optional description. -/
structure FeeBlock where
  value : Int
  offset : Int
  description : Option String
deriving DecidableEq

/-- The emitted `discount` block. -/
structure DiscountBlock where
  value : Int
  offset : Int
  description : Option String
  discount_program_name : Option String
deriving DecidableEq

/-- The monetary part of the emitted order (lines 152-222 of
`checkout_base.py`): offset taken from `items[0].amount`, rendered items,
`subtotal`, the optional fee blocks, and the final `total_amount` built by
the validating `Amount` constructor. -/
structure OrderCore where
  offset : Int
  item_list : List RenderedItem
  subtotal_value : Int
  tax : Option FeeBlock
  shipping : Option FeeBlock
  discount : Option DiscountBlock
  total_amount : Amount
deriving DecidableEq

/-- One `if tax_amount:` / `if shipping_amount:` block of
`send_order_details_msg`: adds the amount's value to the running total and
emits a block with the order offset and the optional description. -/
def feeStage (offset total : Int) (fee_amount : Option Amount) (fee_desc : Option String) :
    Int × Option FeeBlock :=
  match fee_amount with
  | some t => (total + t.value,
      some { value := t.value, offset := offset,
             description := if strTruthy fee_desc = true then fee_desc else none })
  | none => (total, none)

/-- The `if discount_amount:` block: subtracts the amount's value from the
running total. -/
def discountStage (offset total : Int) (discount_amount : Option Amount)
    (discount_desc discount_program_name : Option String) : Int × Option DiscountBlock :=
  match discount_amount with
  | some d => (total - d.value,
      some { value := d.value, offset := offset,
             description := if strTruthy discount_desc = true then discount_desc else none,
             discount_program_name :=
               if strTruthy discount_program_name = true then discount_program_name
               else none })
  | none => (total, none)

def buildOrderCore (items : List Item)
    (tax_amount : Option Amount) (tax_desc : Option String)
    (shipping_amount : Option Amount) (shipping_desc : Option String)
    (discount_amount : Option Amount) (discount_desc : Option String)
    (discount_program_name : Option String) : Except PyError OrderCore :=
  match items.head? with
  | none => .error .indexError
  | some item0 =>
    let offset := item0.amount.offset
    match itemLoop offset items 0 with
    | .error e => .error e
    | .ok (subtotal, item_list) =>
      let afterTax := feeStage offset subtotal tax_amount tax_desc
      let afterShipping := feeStage offset afterTax.1 shipping_amount shipping_desc
      let afterDiscount :=
        discountStage offset afterShipping.1 discount_amount discount_desc
          discount_program_name
      match Amount.init afterDiscount.1 offset with
      | .error e => .error e
      | .ok total_amount =>
        .ok { offset := offset, item_list := item_list, subtotal_value := subtotal,
              tax := afterTax.2, shipping := afterShipping.2, discount := afterDiscount.2,
              total_amount := total_amount }

/-- The rendered message header (`interactive["header"]`). -/
structure RenderedHeader where
  type : String
  text : Option String
  image_link : Option String
deriving DecidableEq

/-- Header rendering of `send_order_details_msg`: a `text` header needs
truthy text, an `image` header needs a truthy link, anything else raises
`ValueError`. -/
def renderHeader : Option Header → Except PyError (Option RenderedHeader)
  | none => .ok none
  | some hd =>
    if hd.type = "text" ∧ strTruthy hd.text = true then
      .ok (some { type := hd.type, text := hd.text, image_link := none })
    else if hd.type = "image" ∧ strTruthy hd.image_link = true then
      .ok (some { type := hd.type, text := none, image_link := hd.image_link })
    else .error (.invalidHeaderType hd.type)

/-- The request that `send_order_details_msg` POSTs (the structured form of
the `interactive` dict plus the envelope fields; the wire form re-serializes
`interactive` and the fee blocks as JSON strings, which changes no field). -/
structure OrderDetailsRequest where
  msg_to : String
  reference_id : String
  goods_type : String
  payment_configuration : String
  currency : String
  msg_body : String
  header : Option RenderedHeader
  footer : Option String
  catalog_id : Option String
  expiration_timestamp : Option String
  expiration_description : Option String
  order : OrderCore
deriving DecidableEq

/-- `CheckoutBase.send_order_details_msg`.  `cache` is the current
`_phone_number_to_id_map`, `dirData` the directory that a lazy
`_load_phone_numbers` would receive, `pcfg` the payment configuration id.
Returns the network events performed (in order) and either the sent request
or the Python exception raised. -/
def send_order_details_msg
    (cache dirData : List (String × String)) (pcfg : String)
    (goods_type sender_phone_number recipient_phone_number reference_id msg_body : String)
    (items : List Item)
    (tax_amount : Option Amount) (tax_desc : Option String)
    (shipping_amount : Option Amount) (shipping_desc : Option String)
    (discount_amount : Option Amount) (discount_desc : Option String)
    (discount_program_name : Option String)
    (catalog_id : Option String)
    (msg_header : Option Header)
    (msg_footer : Option String)
    (expiration_in_sec : Option String)
    (expiration_desc : Option String) :
    List NetEvent × Except PyError OrderDetailsRequest :=
  match _get_sender_phone_number_id cache dirData sender_phone_number with
  | (ev, .error e) => (ev, .error e)
  | (ev, .ok (phone_number_id, _)) =>
    match renderHeader msg_header with
    | .error e => (ev, .error e)
    | .ok hd =>
      match buildOrderCore items tax_amount tax_desc shipping_amount shipping_desc
          discount_amount discount_desc discount_program_name with
      | .error e => (ev, .error e)
      | .ok core =>
        (ev ++ [.messageSend phone_number_id recipient_phone_number],
         .ok { msg_to := recipient_phone_number, reference_id := reference_id,
               goods_type := goods_type, payment_configuration := pcfg,
               currency := "INR", msg_body := msg_body, header := hd,
               footer := if strTruthy msg_footer = true then msg_footer else none,
               catalog_id := if strTruthy catalog_id = true then catalog_id else none,
               expiration_timestamp :=
                 if strTruthy expiration_in_sec = true then expiration_in_sec else none,
               expiration_description :=
                 if strTruthy expiration_in_sec = true then
                   (if strTruthy expiration_desc = true then expiration_desc else none)
                 else none,
               order := core })

/-! ## `verify_webhook` -/

/-- Whether every character of a string is ASCII (code point below 128). -/
def strIsAscii (s : String) : Bool := s.data.all (fun c => decide (c.toNat < 128))

/-- `hmac.compare_digest` on two `str` arguments: CPython raises `TypeError`
("comparing strings with non-ASCII characters is not supported") when either
argument contains a non-ASCII character; otherwise it is a constant-time
equality check, functionally plain equality. -/
def hmacCompareDigest (a b : String) : Except PyError Bool :=
  if strIsAscii a = false ∨ strIsAscii b = false then .error .typeError
  else .ok (decide (a = b))

/-- `CheckoutBase.verify_webhook`: subscripts the headers dict (`KeyError`
when the signature header is absent), strips the `sha256=` prefix and
compares against the computed HMAC-SHA256 hex digest of the payload with
`hmac.compare_digest` (which raises `TypeError` on a non-ASCII header
value). -/
def verify_webhook (app_secret : String) (headers : List (String × String))
    (payload : String) : Except PyError Bool :=
  match dictGet headers "X-Hub-Signature-256" with
  | none => .error (.keyError "X-Hub-Signature-256")
  | some v =>
    hmacCompareDigest (removeprefixPy v "sha256=") (hmacSha256Hex app_secret payload)

/-! ## `handle_webhook_call` (callback classifier) and `get_payment_status` -/

/-- Python truthiness of a JSON value. -/
def JVal.truthy : JVal → Bool
  | .null => false
  | .bool b => b
  | .num n => !(decide (n = 0))
  | .str s => !(decide (s = ""))
  | .arr [] => false
  | .arr (_ :: _) => true
  | .obj [] => false
  | .obj (_ :: _) => true

/-- Dict subscript `j[k]`: `KeyError` on a missing key, `TypeError` when `j`
is not a dict. -/
def JVal.getItem : JVal → String → Except PyError JVal
  | .obj fields, k =>
    match fields.find? (fun p => decide (p.1 = k)) with
    | some p => .ok p.2
    | none => .error (.keyError k)
  | _, _ => .error .typeError

/-- List subscript `j[n]`: `IndexError` out of range, `TypeError` when `j`
is not a list. -/
def JVal.index : JVal → Nat → Except PyError JVal
  | .arr l, n =>
    match l.get? n with
    | some v => .ok v
    | none => .error .indexError
  | _, _ => .error .typeError

/-- Dict method `j.get(k)`: `None` on a missing key, `AttributeError` when
`j` is not a dict. -/
def JVal.getOpt : JVal → String → Except PyError (Option JVal)
  | .obj fields, k => .ok ((fields.find? (fun p => decide (p.1 = k))).map (fun p => p.2))
  | _, _ => .error .attributeError

/-- Python `j == s` for a string literal `s`: true only for an equal JSON
string. -/
def JVal.eqStr : JVal → String → Bool
  | .str s, t => decide (s = t)
  | _, _ => false

def optTruthy : Option JVal → Bool
  | none => false
  | some j => j.truthy

/-- Python `v == "payment"` where `v` came from `.get` (so may be `None`). -/
def optEqStr : Option JVal → String → Bool
  | some j, t => j.eqStr t
  | none, _ => false

/-- Python `v in [s1, ...]` where `v` came from `.get`. -/
def statusInList (v : Option JVal) (l : List String) : Bool :=
  match v with
  | some (.str s) => l.any (fun t => decide (s = t))
  | _ => false

/-- The classification that `handle_webhook_call` prints / acts on. -/
inductive HandleOutcome where
  | notVerified
  | wrongObject (object : JVal)
  | wrongEntry (entry_id : JVal)
  | wrongField (field : JVal)
  | paymentConfirmation (transaction_id reference_id status display_phone_number : JVal)
  | statusUpdate (id : Option JVal) (reference_id : JVal) (status : Option JVal)
      (display_phone_number : JVal)
  | unrecognized (raw : String)

/-- The guard of the transaction-status-update branch, with Python's
short-circuit evaluation: the final conjunct subscripts the payment dict and
may raise `KeyError`. -/
def statusGuard (recipient_id status_type status payment timestamp : Option JVal) :
    Except PyError Bool :=
  if optTruthy recipient_id = false then .ok false
  else if optEqStr status_type "payment" = false then .ok false
  else if statusInList status ["pending", "failed", "success", "canceled"] = false then .ok false
  else if optTruthy timestamp = false then .ok false
  else if optTruthy payment = false then .ok false
  else
    match payment with
    | some pay => (pay.getItem "reference_id").map JVal.truthy
    | none => .ok false

/-- `CheckoutBase.get_payment_status`: resolves the business phone number and
GETs the payments endpoint. -/
def get_payment_status (cache dirData : List (String × String)) (pcfg : String)
    (business_phone_number : String) (reference_id : JVal) :
    List NetEvent × Except PyError Unit :=
  match _get_sender_phone_number_id cache dirData business_phone_number with
  | (ev, .error e) => (ev, .error e)
  | (ev, .ok (pid, _)) => (ev ++ [.paymentStatusQuery pid pcfg reference_id], .ok ())

/-- The fields pulled off the first status entry by `.get`. -/
structure StatusCtx where
  id : Option JVal
  recipient_id : Option JVal
  status_type : Option JVal
  status : Option JVal
  payment : Option JVal
  timestamp : Option JVal

def extractStatusCtx (value : JVal) : Except PyError StatusCtx := do
  let status0 ← (value.getItem "statuses").bind (fun s => s.index 0)
  let id ← status0.getOpt "id"
  let recipient_id ← status0.getOpt "recipient_id"
  let status_type ← status0.getOpt "type"
  let status ← status0.getOpt "status"
  let payment ← status0.getOpt "payment"
  let timestamp ← status0.getOpt "timestamp"
  return { id := id, recipient_id := recipient_id, status_type := status_type,
           status := status, payment := payment, timestamp := timestamp }

/-- Lines 331-364 of `checkout_base.py`: the status-update branch reached
when there is no interactive payment confirmation.  On a matching guard it
formats the update (reading `metadata.display_phone_number`) and calls
`get_payment_status` with the first key of the phone-number map
(`IndexError` when the map is empty). -/
def statuses_branch (cache dirData : List (String × String)) (pcfg : String)
    (value : JVal) (payload : String) : List NetEvent × Except PyError HandleOutcome :=
  match extractStatusCtx value with
  | .error e => ([], .error e)
  | .ok ctx =>
    match statusGuard ctx.recipient_id ctx.status_type ctx.status ctx.payment ctx.timestamp with
    | .error e => ([], .error e)
    | .ok false => ([], .ok (.unrecognized payload))
    | .ok true =>
      match ctx.payment with
      | none => ([], .error .typeError)
      | some pay =>
        match pay.getItem "reference_id" with
        | .error e => ([], .error e)
        | .ok refId =>
          match (value.getItem "metadata").bind (fun m => m.getItem "display_phone_number") with
          | .error e => ([], .error e)
          | .ok display =>
            match cache with
            | [] => ([], .error .indexError)
            | (p0, _) :: _ =>
              match get_payment_status cache dirData pcfg p0 refId with
              | (ev, .error e) => (ev, .error e)
              | (ev, .ok _) =>
                (ev, .ok (.statusUpdate ctx.id refId ctx.status display))

/-- `CheckoutBase.handle_webhook_call`.  `parsed` is `json.loads(payload)`
(the JSON decoder itself is Python standard library).  Mirrors the guard
order of the source: verification, object type, entry id, change field,
interactive payment confirmation, then the status branch. -/
def handle_webhook_call (cache dirData : List (String × String)) (secret waba pcfg : String)
    (headers : List (String × String)) (payload : String) (parsed : JVal) :
    List NetEvent × Except PyError HandleOutcome :=
  match verify_webhook secret headers payload with
  | .error e => ([], .error e)
  | .ok false => ([], .ok .notVerified)
  | .ok true =>
    match parsed.getItem "object" with
    | .error e => ([], .error e)
    | .ok object =>
      if object.eqStr "whatsapp_business_account" = false then ([], .ok (.wrongObject object))
      else
        match (parsed.getItem "entry").bind (fun l => l.index 0) with
        | .error e => ([], .error e)
        | .ok entry =>
          match entry.getItem "id" with
          | .error e => ([], .error e)
          | .ok entry_id =>
            if entry_id.eqStr waba = false then ([], .ok (.wrongEntry entry_id))
            else
              match (entry.getItem "changes").bind (fun l => l.index 0) with
              | .error e => ([], .error e)
              | .ok change =>
                match change.getItem "field" with
                | .error e => ([], .error e)
                | .ok field =>
                  if field.eqStr "messages" = false then ([], .ok (.wrongField field))
                  else
                    match change.getItem "value" with
                    | .error e => ([], .error e)
                    | .ok value =>
                      match ((value.getItem "messages").bind (fun l => l.index 0)).bind
                          (fun m => m.getOpt "interactive") with
                      | .error e => ([], .error e)
                      | .ok interactiveOpt =>
                        match interactiveOpt with
                        | none => statuses_branch cache dirData pcfg value payload
                        | some interactive =>
                          if interactive.truthy = false then
                            statuses_branch cache dirData pcfg value payload
                          else
                            match interactive.getItem "type" with
                            | .error e => ([], .error e)
                            | .ok ty =>
                              if ty.eqStr "payment" = false then
                                statuses_branch cache dirData pcfg value payload
                              else
                                match interactive.getItem "payment" with
                                | .error e => ([], .error e)
                                | .ok payment =>
                                  match payment.getItem "transaction_id" with
                                  | .error e => ([], .error e)
                                  | .ok txid =>
                                    match payment.getItem "reference_id" with
                                    | .error e => ([], .error e)
                                    | .ok refid =>
                                      match payment.getItem "status" with
                                      | .error e => ([], .error e)
                                      | .ok pstatus =>
                                        match (value.getItem "metadata").bind
                                            (fun m => m.getItem "display_phone_number") with
                                        | .error e => ([], .error e)
                                        | .ok display =>
                                          ([], .ok (.paymentConfirmation txid refid pstatus
                                            display))

/-! ## Specification-level derived quantities -/

/-- The subtotal the spec describes: the sum over items of the effective
amount's value times the quantity. -/
def listSubtotal (items : List Item) : Int :=
  (items.map (fun item => (effective_amount item).value * item.quantity)).sum

/-- Value of an optional amount, zero when absent. -/
def optValue : Option Amount → Int
  | some a => a.value
  | none => 0

def exceptIsOk {ε α : Type} : Except ε α → Bool
  | .ok _ => true
  | .error _ => false

/-- The postcondition of the validating `Amount` factory, as a boolean
check: offset is the fixed constant and the value is a multiple of it. -/
def amountOKB (a : Amount) : Bool :=
  decide (a.offset = VALUE_OFFSET) && decide (a.value % VALUE_OFFSET = 0)

def optAmountOKB : Option Amount → Bool
  | none => true
  | some a => amountOKB a

/-- All amounts reaching `send_order_details_msg` were built by the
validating factory. -/
def amountsValidated (items : List Item) (tax shipping discount : Option Amount) : Bool :=
  items.all (fun item => amountOKB item.amount && optAmountOKB item.sale_amount) &&
    optAmountOKB tax && optAmountOKB shipping && optAmountOKB discount

/-! ## Concrete data used by witnesses and counterexamples -/

def wItem : Item :=
  { name := "Product", amount := { value := 1000, offset := 100 }, quantity := 2 }

/-- An item with quantity 0 whose effective amount has an offset different
from the order offset. -/
def wItemBadZero : Item :=
  { name := "Freebie", amount := { value := 500, offset := 50 }, quantity := 0 }

def wCache : List (String × String) := [("16315550001", "PHID1")]

/-- Expected request for the C1 witness run: two units at 1000, tax 100,
shipping 100, discount 3000, hence a negative unclamped total of -800. -/
def wReqC1 : OrderDetailsRequest :=
  { msg_to := "16315550002", reference_id := "ref-1", goods_type := "digital-goods",
    payment_configuration := "pc", currency := "INR", msg_body := "body", header := none,
    footer := none, catalog_id := none, expiration_timestamp := none,
    expiration_description := none,
    order :=
      { offset := 100,
        item_list := [{ name := "Product", amount := { value := 1000, offset := 100 },
                        quantity := 2, sale_amount := none, retailer_id := none,
                        image_link := none, country_of_origin := none,
                        importer_name := none, importer_address := none }],
        subtotal_value := 2000,
        tax := some { value := 100, offset := 100, description := none },
        shipping := some { value := 100, offset := 100, description := none },
        discount := some { value := 3000, offset := 100, description := none,
                           discount_program_name := none },
        total_amount := { value := -800, offset := 100 } } }

/-- Expected request for the C2 witness run: same item, no fee blocks. -/
def wReqC2 : OrderDetailsRequest :=
  { msg_to := "16315550002", reference_id := "ref-1", goods_type := "digital-goods",
    payment_configuration := "pc", currency := "INR", msg_body := "body", header := none,
    footer := none, catalog_id := none, expiration_timestamp := none,
    expiration_description := none,
    order :=
      { offset := 100,
        item_list := [{ name := "Product", amount := { value := 1000, offset := 100 },
                        quantity := 2, sale_amount := none, retailer_id := none,
                        image_link := none, country_of_origin := none,
                        importer_name := none, importer_address := none }],
        subtotal_value := 2000,
        tax := none, shipping := none, discount := none,
        total_amount := { value := 2000, offset := 100 } } }

/-- Expected request for the C8 witness run: fee amounts carrying offsets 7,
8 and 9 are accepted unchecked, and the emitted blocks carry the order
offset 100. -/
def wReqC8 : OrderDetailsRequest :=
  { msg_to := "16315550002", reference_id := "ref-1", goods_type := "digital-goods",
    payment_configuration := "pc", currency := "INR", msg_body := "body", header := none,
    footer := none, catalog_id := none, expiration_timestamp := none,
    expiration_description := none,
    order :=
      { offset := 100,
        item_list := [{ name := "Product", amount := { value := 1000, offset := 100 },
                        quantity := 2, sale_amount := none, retailer_id := none,
                        image_link := none, country_of_origin := none,
                        importer_name := none, importer_address := none }],
        subtotal_value := 2000,
        tax := some { value := 100, offset := 100, description := none },
        shipping := some { value := 100, offset := 100, description := none },
        discount := some { value := 300, offset := 100, description := none,
                           discount_program_name := none },
        total_amount := { value := 1900, offset := 100 } } }

/-- A parsed callback body whose first inbound message carries an
interactive payment confirmation.  `extraStatuses` is an arbitrary
`statuses` value also present in the body (possibly one that would match the
status-update guard). -/
def mkConfirmationBody (waba txid refid pstatus display : String) (extraStatuses : JVal) :
    JVal :=
  .obj [("object", .str "whatsapp_business_account"),
    ("entry", .arr [.obj [("id", .str waba),
      ("changes", .arr [.obj [("field", .str "messages"),
        ("value", .obj [
          ("messages", .arr [.obj [("interactive", .obj [("type", .str "payment"),
            ("payment", .obj [("transaction_id", .str txid), ("reference_id", .str refid),
              ("status", .str pstatus)])])]]),
          ("metadata", .obj [("display_phone_number", .str display)]),
          ("statuses", extraStatuses)])]])]])]

lemma listSubtotal_nil : listSubtotal [] = 0 := rfl

lemma listSubtotal_cons (item : Item) (rest : List Item) :
    listSubtotal (item :: rest) =
      (effective_amount item).value * item.quantity + listSubtotal rest := by
  simp [listSubtotal]

lemma amount_init_ok {v o : Int} {a : Amount} (h : Amount.init v o = .ok a) :
    a.value = v ∧ a.offset = o := by
  unfold Amount.init at h
  split at h
  · simp at h
  · split at h
    · simp at h
    · simp only [Except.ok.injEq] at h
      subst h
      exact ⟨rfl, rfl⟩

lemma amount_init_of {v : Int} (hv : v % 100 = 0) :
    Amount.init v 100 = .ok { value := v, offset := 100 } := by
  simp [Amount.init, VALUE_OFFSET, hv]

lemma itemLoop_total (items : List Item) : ∀ (offset t0 t : Int) (its : List RenderedItem),
    itemLoop offset items t0 = .ok (t, its) → t = t0 + listSubtotal items := by
  induction items with
  | nil =>
    intro offset t0 t its h
    simp only [itemLoop, Except.ok.injEq, Prod.mk.injEq] at h
    simp [listSubtotal, ← h.1]
  | cons item rest ih =>
    intro offset t0 t its h
    simp only [itemLoop] at h
    split at h
    · simp at h
    · split at h
      · simp at h
      · rename_i t' its' heq
        simp only [Except.ok.injEq, Prod.mk.injEq] at h
        have := ih offset (t0 + (effective_amount item).value * item.quantity) t' its' heq
        rw [listSubtotal_cons, ← h.1, this]
        ring

lemma itemLoop_not_ok (items : List Item) :
    ∀ (offset t0 : Int) (item : Item), item ∈ items →
      (effective_amount item).offset ≠ offset →
      exceptIsOk (itemLoop offset items t0) = false := by
  induction items with
  | nil => intro offset t0 item hmem; exact absurd hmem (List.not_mem_nil item)
  | cons hd rest ih =>
    intro offset t0 item hmem hne
    rcases List.mem_cons.mp hmem with h1 | h2
    · subst h1
      simp [itemLoop, hne, exceptIsOk]
    · by_cases hc : (effective_amount hd).offset ≠ offset
      · simp [itemLoop, hc, exceptIsOk]
      · push_neg at hc
        simp only [itemLoop, hc, ne_eq, not_true_eq_false, if_false, ite_false]
        have hrec := ih offset (t0 + (effective_amount hd).value * hd.quantity) item h2 hne
        rcases hres : itemLoop offset rest (t0 + (effective_amount hd).value * hd.quantity)
          with e | pr
        · simp [hres, exceptIsOk]
        · rw [hres] at hrec
          simp [exceptIsOk] at hrec

lemma itemLoop_ok (items : List Item) :
    ∀ (offset t0 : Int), (∀ i ∈ items, (effective_amount i).offset = offset) →
      ∃ its, itemLoop offset items t0 = .ok (t0 + listSubtotal items, its) := by
  induction items with
  | nil => intro offset t0 _; exact ⟨[], by simp [itemLoop, listSubtotal]⟩
  | cons hd rest ih =>
    intro offset t0 hall
    obtain ⟨its, hits⟩ := ih offset (t0 + (effective_amount hd).value * hd.quantity)
      (fun i hi => hall i (List.mem_cons_of_mem hd hi))
    refine ⟨renderItem hd :: its, ?_⟩
    have hhd : ¬ ((effective_amount hd).offset ≠ offset) := by
      simp [hall hd (List.mem_cons_self hd rest)]
    simp only [itemLoop, hhd, ite_false, if_false, hits, listSubtotal_cons]
    congr 2
    ring

lemma listSubtotal_dvd (items : List Item)
    (h : ∀ i ∈ items, (100 : Int) ∣ (effective_amount i).value) :
    (100 : Int) ∣ listSubtotal items := by
  induction items with
  | nil => simp [listSubtotal]
  | cons a l ih =>
    rw [listSubtotal_cons]
    exact dvd_add ((h a (List.mem_cons_self a l)).mul_right _)
      (ih fun i hi => h i (List.mem_cons_of_mem a hi))

lemma feeStage_fst (offset total : Int) (fa : Option Amount) (fd : Option String) :
    (feeStage offset total fa fd).1 = total + optValue fa := by
  cases fa <;> simp [feeStage, optValue]

lemma feeStage_snd (offset total : Int) (fa : Option Amount) (fd : Option String) :
    ∀ fb, (feeStage offset total fa fd).2 = some fb →
      fb.offset = offset ∧ fb.value = optValue fa := by
  cases fa with
  | none => simp [feeStage]
  | some t =>
    intro fb hfb
    simp only [feeStage, Option.some.injEq] at hfb
    subst hfb
    simp [optValue]

lemma discountStage_fst (offset total : Int) (da : Option Amount) (dd dpn : Option String) :
    (discountStage offset total da dd dpn).1 = total - optValue da := by
  cases da <;> simp [discountStage, optValue]

lemma discountStage_snd (offset total : Int) (da : Option Amount) (dd dpn : Option String) :
    ∀ db, (discountStage offset total da dd dpn).2 = some db →
      db.offset = offset ∧ db.value = optValue da := by
  cases da with
  | none => simp [discountStage]
  | some d =>
    intro db hdb
    simp only [discountStage, Option.some.injEq] at hdb
    subst hdb
    simp [optValue]

lemma buildOrderCore_ok_totals {items : List Item} {ta : Option Amount} {td : Option String}
    {sa : Option Amount} {sd : Option String} {da : Option Amount} {dd : Option String}
    {dpn : Option String} {core : OrderCore}
    (h : buildOrderCore items ta td sa sd da dd dpn = .ok core) :
    core.subtotal_value = listSubtotal items ∧
    core.total_amount.value = listSubtotal items + optValue ta + optValue sa - optValue da ∧
    (∀ tb, core.tax = some tb → tb.offset = core.offset ∧ tb.value = optValue ta) ∧
    (∀ sb, core.shipping = some sb → sb.offset = core.offset ∧ sb.value = optValue sa) ∧
    (∀ db, core.discount = some db → db.offset = core.offset ∧ db.value = optValue da) := by
  unfold buildOrderCore at h
  split at h
  · simp at h
  · rename_i item0 hhead
    simp only [] at h
    split at h
    · simp at h
    · rename_i subtotal item_list hloop
      have hsub := itemLoop_total items item0.amount.offset 0 subtotal item_list hloop
      rw [zero_add] at hsub
      split at h
      · simp at h
      · rename_i total_amount hinit
        obtain ⟨hv, _⟩ := amount_init_ok hinit
        simp only [Except.ok.injEq] at h
        subst h
        rw [discountStage_fst, feeStage_fst, feeStage_fst] at hv
        dsimp only
        refine ⟨hsub, ?_, feeStage_snd _ _ _ _, feeStage_snd _ _ _ _,
          discountStage_snd _ _ _ _ _⟩
        rw [hv, hsub]

lemma send_ok_order {cache dirData : List (String × String)} {pcfg gt sp rp rid mb : String}
    {items : List Item} {ta : Option Amount} {td : Option String} {sa : Option Amount}
    {sd : Option String} {da : Option Amount} {dd : Option String} {dpn cat : Option String}
    {mh : Option Header} {mf ei ed : Option String} {ev : List NetEvent}
    {p : OrderDetailsRequest}
    (h : send_order_details_msg cache dirData pcfg gt sp rp rid mb items ta td sa sd da dd
      dpn cat mh mf ei ed = (ev, .ok p)) :
    buildOrderCore items ta td sa sd da dd dpn = .ok p.order := by
  unfold send_order_details_msg at h
  split at h
  · simp at h
  · split at h
    · simp at h
    · split at h
      · simp at h
      · rename_i core hcore
        simp only [Prod.mk.injEq, Except.ok.injEq] at h
        rw [hcore, ← h.2]

lemma send_not_ok_of_core {cache dirData : List (String × String)} {pcfg gt sp rp rid mb : String}
    {items : List Item} {ta : Option Amount} {td : Option String} {sa : Option Amount}
    {sd : Option String} {da : Option Amount} {dd : Option String} {dpn cat : Option String}
    {mh : Option Header} {mf ei ed : Option String}
    (h : exceptIsOk (buildOrderCore items ta td sa sd da dd dpn) = false) :
    exceptIsOk (send_order_details_msg cache dirData pcfg gt sp rp rid mb items ta td sa sd
      da dd dpn cat mh mf ei ed).2 = false := by
  unfold send_order_details_msg
  split
  · simp [exceptIsOk]
  · split
    · simp [exceptIsOk]
    · split
      · simp [exceptIsOk]
      · rename_i core hcore
        rw [hcore] at h
        simp [exceptIsOk] at h

lemma buildOrderCore_not_ok {items : List Item} {ta : Option Amount} {td : Option String}
    {sa : Option Amount} {sd : Option String} {da : Option Amount} {dd : Option String}
    {dpn : Option String} {item0 item : Item}
    (hhead : items.head? = some item0) (hmem : item ∈ items)
    (hne : (effective_amount item).offset ≠ item0.amount.offset) :
    exceptIsOk (buildOrderCore items ta td sa sd da dd dpn) = false := by
  have hl := itemLoop_not_ok items item0.amount.offset 0 item hmem hne
  unfold buildOrderCore
  rw [hhead]
  simp only []
  rcases hres : itemLoop item0.amount.offset items 0 with e | pr
  · simp [exceptIsOk]
  · rw [hres] at hl
    simp [exceptIsOk] at hl

lemma resolve_events (cache dirData : List (String × String)) (phone : String) :
    (_get_sender_phone_number_id cache dirData phone).1 = [] ∨
    (_get_sender_phone_number_id cache dirData phone).1 = [.directoryFetch] := by
  unfold _get_sender_phone_number_id
  cases cache <;> simp

lemma resolve_events_nil (dirData : List (String × String)) (phone : String) :
    (_get_sender_phone_number_id [] dirData phone).1 = [.directoryFetch] := rfl

lemma resolve_error_shape {cache dirData : List (String × String)} {phone : String}
    {ev : List NetEvent} {e : PyError}
    (h : _get_sender_phone_number_id cache dirData phone = (ev, .error e)) :
    e = .noPhoneNumbers ∨ ∃ k, e = .keyError k := by
  unfold _get_sender_phone_number_id at h
  cases cache with
  | nil =>
    simp only [Prod.mk.injEq] at h
    rcases h with ⟨-, h⟩
    cases dirData with
    | nil =>
      simp only [_load_phone_numbers, Except.error.injEq] at h
      exact Or.inl h.symm
    | cons d rest =>
      simp only [_load_phone_numbers] at h
      split at h
      · simp at h
      · simp only [Except.error.injEq] at h
        exact Or.inr ⟨phone, h.symm⟩
  | cons c rest =>
    simp only [Prod.mk.injEq] at h
    rcases h with ⟨-, h⟩
    split at h
    · simp at h
    · simp only [Except.error.injEq] at h
      exact Or.inr ⟨phone, h.symm⟩

lemma renderHeader_error_shape {mh : Option Header} {e : PyError}
    (h : renderHeader mh = .error e) : ∃ t, e = .invalidHeaderType t := by
  cases mh with
  | none => simp [renderHeader] at h
  | some hd =>
    simp only [renderHeader] at h
    split at h
    · simp at h
    · split at h
      · simp at h
      · simp at h; exact ⟨hd.type, h.symm⟩

lemma amountOKB_spec {a : Amount} (h : amountOKB a = true) :
    a.offset = 100 ∧ a.value % 100 = 0 := by
  simp only [amountOKB, VALUE_OFFSET, Bool.and_eq_true, decide_eq_true_eq] at h
  exact h

lemma optAmountOKB_dvd {oa : Option Amount} (h : optAmountOKB oa = true) :
    (100 : Int) ∣ optValue oa := by
  cases oa with
  | none => simp [optValue]
  | some a =>
    simp only [optAmountOKB] at h
    exact Int.dvd_of_emod_eq_zero (amountOKB_spec h).2

lemma buildOrderCore_validated {items : List Item} {ta : Option Amount} {td : Option String}
    {sa : Option Amount} {sd : Option String} {da : Option Amount} {dd : Option String}
    {dpn : Option String}
    (hitems : ∀ item ∈ items,
      amountOKB item.amount = true ∧ optAmountOKB item.sale_amount = true)
    (hta : optAmountOKB ta = true) (hsa : optAmountOKB sa = true)
    (hda : optAmountOKB da = true) :
    buildOrderCore items ta td sa sd da dd dpn = .error .indexError ∨
    ∃ core, buildOrderCore items ta td sa sd da dd dpn = .ok core := by
  cases items with
  | nil => left; rfl
  | cons i0 rest =>
    right
    have h0 : i0.amount.offset = 100 :=
      (amountOKB_spec (hitems i0 (List.mem_cons_self i0 rest)).1).1
    have hall : ∀ i ∈ i0 :: rest, (effective_amount i).offset = i0.amount.offset := by
      intro i hi
      obtain ⟨ha, hs⟩ := hitems i hi
      unfold effective_amount
      cases hsale : i.sale_amount with
      | none => rw [(amountOKB_spec ha).1, h0]
      | some sa' =>
        rw [hsale] at hs
        rw [(amountOKB_spec hs).1, h0]
    have hdvd : (100 : Int) ∣ listSubtotal (i0 :: rest) := by
      apply listSubtotal_dvd
      intro i hi
      obtain ⟨ha, hs⟩ := hitems i hi
      unfold effective_amount
      cases hsale : i.sale_amount with
      | none => exact Int.dvd_of_emod_eq_zero (amountOKB_spec ha).2
      | some sa' =>
        rw [hsale] at hs
        exact Int.dvd_of_emod_eq_zero (amountOKB_spec hs).2
    obtain ⟨its, hloop⟩ := itemLoop_ok (i0 :: rest) i0.amount.offset 0 hall
    have htotdvd : (100 : Int) ∣
        (0 + listSubtotal (i0 :: rest) + optValue ta + optValue sa - optValue da) := by
      refine dvd_sub (dvd_add (dvd_add ?_ (optAmountOKB_dvd hta)) (optAmountOKB_dvd hsa))
        (optAmountOKB_dvd hda)
      simpa using hdvd
    unfold buildOrderCore
    simp only [List.head?]
    rw [hloop]
    simp only []
    rw [discountStage_fst, feeStage_fst, feeStage_fst, h0,
      amount_init_of (Int.emod_eq_zero_of_dvd htotdvd)]
    exact ⟨_, rfl⟩

/-! ## Claims -/

/-- C1: for every order built by `send_order_details_msg` from a non-empty
item list with optional tax, shipping and discount amounts, the emitted
`total_amount` value equals subtotal plus the present fee values minus the
present discount value; when all three are absent the total equals the
subtotal.  The equation holds over unclamped integers, so the total is
negative whenever the discount exceeds subtotal plus tax plus shipping. -/
theorem claim_C1 (cache dirData : List (String × String)) (pcfg gt sp rp rid mb : String)
    (items : List Item) (ta : Option Amount) (td : Option String) (sa : Option Amount)
    (sd : Option String) (da : Option Amount) (dd : Option String) (dpn cat : Option String)
    (mh : Option Header) (mf ei ed : Option String) (ev : List NetEvent)
    (p : OrderDetailsRequest)
    (h : send_order_details_msg cache dirData pcfg gt sp rp rid mb items ta td sa sd da dd
      dpn cat mh mf ei ed = (ev, .ok p)) :
    p.order.total_amount.value = listSubtotal items + optValue ta + optValue sa - optValue da ∧
    (ta = none → sa = none → da = none →
      p.order.total_amount.value = p.order.subtotal_value) := by
  obtain ⟨hsub, htot, -⟩ := buildOrderCore_ok_totals (send_ok_order h)
  refine ⟨htot, fun hta hsa hda => ?_⟩
  subst hta; subst hsa; subst hda
  rw [htot, hsub]
  simp [optValue]

/-- Witness for C1: a concrete successful send with tax 100, shipping 100
and discount 3000 over a subtotal of 2000; the total is the unclamped
negative -800. -/
theorem claim_C1_witness :
    wReqC1.order.total_amount.value =
      listSubtotal [wItem] + optValue (some { value := 100, offset := 100 }) +
        optValue (some { value := 100, offset := 100 }) -
        optValue (some { value := 3000, offset := 100 }) ∧
    ((some { value := 100, offset := 100 } : Option Amount) = none →
      (some { value := 100, offset := 100 } : Option Amount) = none →
      (some { value := 3000, offset := 100 } : Option Amount) = none →
      wReqC1.order.total_amount.value = wReqC1.order.subtotal_value) :=
  claim_C1 wCache [] "pc" "digital-goods" "16315550001" "16315550002" "ref-1" "body"
    [wItem] (some { value := 100, offset := 100 }) none
    (some { value := 100, offset := 100 }) none
    (some { value := 3000, offset := 100 }) none none none none none none none
    [NetEvent.messageSend "PHID1" "16315550002"] wReqC1 rfl

/-- C2: for every successful call the emitted subtotal is the sum over items
of effective value times quantity (`sale_amount` preferred when present);
and any item whose effective amount's offset differs from the order offset
(the first item's `amount.offset`) makes the call fail, regardless of its
quantity, so a quantity-0 item is still scale-checked. -/
theorem claim_C2 (cache dirData : List (String × String)) (pcfg gt sp rp rid mb : String)
    (items : List Item) (ta : Option Amount) (td : Option String) (sa : Option Amount)
    (sd : Option String) (da : Option Amount) (dd : Option String) (dpn cat : Option String)
    (mh : Option Header) (mf ei ed : Option String) :
    (∀ ev p, send_order_details_msg cache dirData pcfg gt sp rp rid mb items ta td sa sd da
        dd dpn cat mh mf ei ed = (ev, .ok p) →
      p.order.subtotal_value = listSubtotal items) ∧
    (∀ item0 item, items.head? = some item0 → item ∈ items →
      (effective_amount item).offset ≠ item0.amount.offset →
      exceptIsOk (send_order_details_msg cache dirData pcfg gt sp rp rid mb items ta td sa
        sd da dd dpn cat mh mf ei ed).2 = false) := by
  constructor
  · intro ev p h
    exact (buildOrderCore_ok_totals (send_ok_order h)).1
  · intro item0 item hhead hmem hne
    exact send_not_ok_of_core (buildOrderCore_not_ok hhead hmem hne)

/-- Witness for C2: the subtotal of the concrete run is `listSubtotal`, and
adding a quantity-0 item with offset 50 makes the concrete call fail. -/
theorem claim_C2_witness :
    wReqC2.order.subtotal_value = listSubtotal [wItem] ∧
    exceptIsOk (send_order_details_msg wCache [] "pc" "digital-goods" "16315550001"
      "16315550002" "ref-1" "body" [wItem, wItemBadZero] none none none none none none none
      none none none none none).2 = false :=
  ⟨(claim_C2 wCache [] "pc" "digital-goods" "16315550001" "16315550002" "ref-1" "body"
      [wItem] none none none none none none none none none none none none).1
      [NetEvent.messageSend "PHID1" "16315550002"] wReqC2 rfl,
   (claim_C2 wCache [] "pc" "digital-goods" "16315550001" "16315550002" "ref-1" "body"
      [wItem, wItemBadZero] none none none none none none none none none none none none).2
      wItem wItemBadZero rfl (by decide) (by decide)⟩

/-- C9: constructing an `Amount` with an offset other than the fixed
constant 100 fails, constructing one with a value that is not a multiple of
100 fails, and a successfully constructed `Amount` has offset 100 and a
value divisible by 100. -/
theorem claim_C9 (v o : Int) :
    (o ≠ 100 → Amount.init v o = .error .offsetMustBe100) ∧
    (v % 100 ≠ 0 → ∀ a, Amount.init v o ≠ .ok a) ∧
    (∀ a, Amount.init v o = .ok a → a.offset = 100 ∧ (100 : Int) ∣ a.value) := by
  refine ⟨fun ho => ?_, fun hv a => ?_, fun a h => ?_⟩
  · simp [Amount.init, VALUE_OFFSET, ho]
  · by_cases ho : o = 100
    · subst ho; simp [Amount.init, VALUE_OFFSET, hv]
    · simp [Amount.init, VALUE_OFFSET, ho]
  · by_cases ho : o = 100
    · subst ho
      by_cases hv : v % 100 = 0
      · simp only [Amount.init, VALUE_OFFSET] at h
        rw [if_neg (by simp), if_neg (by simp [hv])] at h
        simp only [Except.ok.injEq] at h
        subst h
        exact ⟨rfl, Int.dvd_of_emod_eq_zero hv⟩
      · simp [Amount.init, VALUE_OFFSET, hv] at h
    · simp [Amount.init, VALUE_OFFSET, ho] at h

/-- Witness for C9: offset 7 rejected, value 250 rejected, value 300 with
offset 100 accepted with the factory postcondition. -/
theorem claim_C9_witness :
    Amount.init 250 7 = .error .offsetMustBe100 ∧
    (∀ a, Amount.init 250 100 ≠ .ok a) ∧
    (({ value := 300, offset := 100 } : Amount).offset = 100 ∧
      (100 : Int) ∣ ({ value := 300, offset := 100 } : Amount).value) :=
  ⟨(claim_C9 250 7).1 (by decide), (claim_C9 250 100).2.1 (by decide),
   (claim_C9 300 100).2.2 { value := 300, offset := 100 } (by rfl)⟩

/-- C5 counterexample: with an empty item list and a cold cache the call
performs the phone-directory fetch (a network interaction) and only then
fails, with an `IndexError` from `items[0]` rather than a validation
error raised before any network interaction. -/
theorem claim_C5_counterexample :
    send_order_details_msg [] [("+1 631-555-0001", "PHID1")] "pc" "digital-goods"
      "16315550001" "16315550002" "ref-1" "body" [] none none none none none none none none
      none none none none = ([NetEvent.directoryFetch], .error .indexError) ∧
    ([NetEvent.directoryFetch] : List NetEvent) ≠ [] := by
  exact ⟨rfl, by simp⟩

/-- C5 (amended): a call with an empty item list always fails and never
reaches the message send; on a cold cache the events performed before the
failure are exactly the phone-directory fetch, so the failure happens after
that network interaction, not before it. -/
theorem claim_C5_amended (cache dirData : List (String × String))
    (pcfg gt sp rp rid mb : String) (items : List Item) (ta : Option Amount)
    (td : Option String) (sa : Option Amount) (sd : Option String) (da : Option Amount)
    (dd : Option String) (dpn cat : Option String) (mh : Option Header)
    (mf ei ed : Option String) (hitems : items = []) :
    (∀ p, (send_order_details_msg cache dirData pcfg gt sp rp rid mb items ta td sa sd da dd
      dpn cat mh mf ei ed).2 ≠ .ok p) ∧
    (∀ pid rcp, NetEvent.messageSend pid rcp ∉
      (send_order_details_msg cache dirData pcfg gt sp rp rid mb items ta td sa sd da dd dpn
        cat mh mf ei ed).1) ∧
    (cache = [] →
      (send_order_details_msg cache dirData pcfg gt sp rp rid mb items ta td sa sd da dd dpn
        cat mh mf ei ed).1 = [NetEvent.directoryFetch]) := by
  subst hitems
  have hev := resolve_events cache dirData sp
  rcases hres : _get_sender_phone_number_id cache dirData sp with ⟨ev, r⟩
  have hev1 : ev = [] ∨ ev = [NetEvent.directoryFetch] := by
    rw [hres] at hev
    exact hev
  have hevnil : cache = [] → ev = [NetEvent.directoryFetch] := by
    intro hc
    subst hc
    have := resolve_events_nil dirData sp
    rw [hres] at this
    exact this
  unfold send_order_details_msg
  rw [hres]
  have hnomsg : ∀ pid rcp, NetEvent.messageSend pid rcp ∉ ev := by
    intro pid rcp hmem
    rcases hev1 with h | h <;> subst h <;> simp at hmem
  rcases r with e | pr
  · exact ⟨by simp, hnomsg, hevnil⟩
  · obtain ⟨pid, m⟩ := pr
    simp only []
    rcases hh : renderHeader mh with e | hd
    · exact ⟨by simp, hnomsg, hevnil⟩
    · simp only []
      have hb : buildOrderCore ([] : List Item) ta td sa sd da dd dpn =
          .error .indexError := rfl
      rw [hb]
      exact ⟨by simp, hnomsg, hevnil⟩

/-- C8 counterexample: a tax amount whose offset 7 differs from the order
offset 100 does not fail the call; the build succeeds and the tax value is
added to the emitted total (2000 + 100). -/
theorem claim_C8_counterexample :
    Except.map (fun p => p.order.total_amount.value)
      (send_order_details_msg wCache [] "pc" "digital-goods" "16315550001" "16315550002"
        "ref-1" "body" [wItem] (some { value := 100, offset := 7 }) none none none none none
        none none none none none none).2 = .ok 2100 := rfl

/-- C8 (amended): `send_order_details_msg` performs no scale check on the
tax, shipping and discount amounts: its entire outcome is unchanged under
any alteration of those amounts' offsets, their values are still folded
into the total, and the emitted fee blocks carry the order offset rather
than the amounts' own offsets. -/
theorem claim_C8_amended (cache dirData : List (String × String))
    (pcfg gt sp rp rid mb : String) (items : List Item) (td sd dd : Option String)
    (dpn cat : Option String) (mh : Option Header) (mf ei ed : Option String)
    (tv sv dv to1 to2 so1 so2 do1 do2 : Int) :
    send_order_details_msg cache dirData pcfg gt sp rp rid mb items
        (some { value := tv, offset := to1 }) td (some { value := sv, offset := so1 }) sd
        (some { value := dv, offset := do1 }) dd dpn cat mh mf ei ed =
      send_order_details_msg cache dirData pcfg gt sp rp rid mb items
        (some { value := tv, offset := to2 }) td (some { value := sv, offset := so2 }) sd
        (some { value := dv, offset := do2 }) dd dpn cat mh mf ei ed ∧
    (∀ ev p, send_order_details_msg cache dirData pcfg gt sp rp rid mb items
        (some { value := tv, offset := to1 }) td (some { value := sv, offset := so1 }) sd
        (some { value := dv, offset := do1 }) dd dpn cat mh mf ei ed = (ev, .ok p) →
      p.order.total_amount.value = listSubtotal items + tv + sv - dv ∧
      (∀ tb, p.order.tax = some tb → tb.offset = p.order.offset ∧ tb.value = tv) ∧
      (∀ sb, p.order.shipping = some sb → sb.offset = p.order.offset ∧ sb.value = sv) ∧
      (∀ db, p.order.discount = some db → db.offset = p.order.offset ∧ db.value = dv)) := by
  constructor
  · rfl
  · intro ev p h
    obtain ⟨-, htot, htax, hship, hdisc⟩ := buildOrderCore_ok_totals (send_ok_order h)
    exact ⟨htot, htax, hship, hdisc⟩

/-- Witness for C8 (amended): the concrete run of the counterexample input,
with fee offsets 7, 8 and 9, succeeds with total 1900 and blocks carrying
the order offset. -/
theorem claim_C8_witness :
    send_order_details_msg wCache [] "pc" "digital-goods" "16315550001" "16315550002"
        "ref-1" "body" [wItem] (some { value := 100, offset := 7 }) none
        (some { value := 100, offset := 8 }) none (some { value := 300, offset := 9 }) none
        none none none none none none =
      send_order_details_msg wCache [] "pc" "digital-goods" "16315550001" "16315550002"
        "ref-1" "body" [wItem] (some { value := 100, offset := 100 }) none
        (some { value := 100, offset := 100 }) none (some { value := 300, offset := 100 })
        none none none none none none none ∧
    (wReqC8.order.total_amount.value = listSubtotal [wItem] + 100 + 100 - 300 ∧
      (∀ tb, wReqC8.order.tax = some tb → tb.offset = wReqC8.order.offset ∧ tb.value = 100) ∧
      (∀ sb, wReqC8.order.shipping = some sb →
        sb.offset = wReqC8.order.offset ∧ sb.value = 100) ∧
      (∀ db, wReqC8.order.discount = some db →
        db.offset = wReqC8.order.offset ∧ db.value = 300)) :=
  ⟨(claim_C8_amended wCache [] "pc" "digital-goods" "16315550001" "16315550002" "ref-1"
      "body" [wItem] none none none none none none none none none 100 100 300 7 100 8 100 9
      100).1,
   (claim_C8_amended wCache [] "pc" "digital-goods" "16315550001" "16315550002" "ref-1"
      "body" [wItem] none none none none none none none none none 100 100 300 7 7 8 8 9 9).2
      [NetEvent.messageSend "PHID1" "16315550002"] wReqC8 rfl⟩

/-- C10: when every amount reaching `send_order_details_msg` satisfies the
validating factory's postcondition (offset 100, value a multiple of 100),
the accumulated total is a multiple of 100 and the order offset is 100, so
the final `Amount(total, offset)` construction never raises: neither of the
two constructor errors can be the call's outcome. -/
theorem claim_C10 (cache dirData : List (String × String)) (pcfg gt sp rp rid mb : String)
    (items : List Item) (ta : Option Amount) (td : Option String) (sa : Option Amount)
    (sd : Option String) (da : Option Amount) (dd : Option String) (dpn cat : Option String)
    (mh : Option Header) (mf ei ed : Option String)
    (hv : amountsValidated items ta sa da = true) :
    (send_order_details_msg cache dirData pcfg gt sp rp rid mb items ta td sa sd da dd dpn
      cat mh mf ei ed).2 ≠ .error .offsetMustBe100 ∧
    (send_order_details_msg cache dirData pcfg gt sp rp rid mb items ta td sa sd da dd dpn
      cat mh mf ei ed).2 ≠ .error .valueMustBeMultipleOf100 := by
  simp only [amountsValidated, Bool.and_eq_true, List.all_eq_true] at hv
  obtain ⟨⟨⟨hitems, hta⟩, hsa⟩, hda⟩ := hv
  have hitems' : ∀ item ∈ items,
      amountOKB item.amount = true ∧ optAmountOKB item.sale_amount = true := by
    intro item hmem
    have := hitems item hmem
    simpa [Bool.and_eq_true] using this
  have hcore := @buildOrderCore_validated items ta td sa sd da dd dpn hitems' hta hsa hda
  unfold send_order_details_msg
  split
  · rename_i ev e hres
    rcases resolve_error_shape hres with h | ⟨k, h⟩ <;> subst h <;> simp
  · split
    · rename_i e hh
      obtain ⟨t, ht⟩ := renderHeader_error_shape hh
      subst ht
      simp
    · split
      · rename_i e hc
        rcases hcore with h | ⟨core, h⟩
        · rw [hc] at h
          simp only [Except.error.injEq] at h
          subst h
          simp
        · rw [hc] at h
          simp at h
      · simp

/-- Witness for C10: a concrete factory-validated run is not rejected by the
final `Amount` construction. -/
theorem claim_C10_witness :
    (send_order_details_msg wCache [] "pc" "digital-goods" "16315550001" "16315550002"
      "ref-1" "body" [wItem] (some { value := 100, offset := 100 }) none none none none none
      none none none none none none).2 ≠ .error .offsetMustBe100 ∧
    (send_order_details_msg wCache [] "pc" "digital-goods" "16315550001" "16315550002"
      "ref-1" "body" [wItem] (some { value := 100, offset := 100 }) none none none none none
      none none none none none none).2 ≠ .error .valueMustBeMultipleOf100 :=
  claim_C10 wCache [] "pc" "digital-goods" "16315550001" "16315550002" "ref-1" "body"
    [wItem] (some { value := 100, offset := 100 }) none none none none none none none none
    none none none (by rfl)

lemma string_data_append (s t : String) : (s ++ t).data = s.data ++ t.data := by
  cases s
  cases t
  rfl

lemma string_mk_data (s : String) : String.mk s.data = s := by
  cases s
  rfl

lemma strStartsWith_append_self (p x : List Char) : strStartsWith (p ++ x) p = true := by
  induction p with
  | nil => simp [strStartsWith]
  | cons c ps ih => simp [strStartsWith, ih]

lemma removeprefix_concat (d : String) : removeprefixPy ("sha256=" ++ d) "sha256=" = d := by
  unfold removeprefixPy
  rw [string_data_append, if_pos (strStartsWith_append_self _ _), List.drop_left,
    string_mk_data]

lemma hexChar_ne_s (n : Nat) : hexChar n ≠ 's' := by
  unfold hexChar
  split
  · rename_i h
    interval_cases n <;> decide
  · split
    · rename_i h1 h2
      interval_cases n <;> decide
    · decide

lemma hmacSha256Hex_data (s p : String) :
    ∃ n rest, (hmacSha256Hex s p).data = hexChar n :: rest :=
  ⟨_, _, rfl⟩

lemma removeprefix_digest (s p : String) :
    removeprefixPy (hmacSha256Hex s p) "sha256=" = hmacSha256Hex s p := by
  obtain ⟨n, rest, hd⟩ := hmacSha256Hex_data s p
  unfold removeprefixPy
  rw [if_neg]
  intro hcontra
  rw [hd] at hcontra
  have h7 : "sha256=".data = 's' :: "ha256=".data := rfl
  rw [h7] at hcontra
  simp only [strStartsWith, Bool.and_eq_true, decide_eq_true_eq] at hcontra
  exact hexChar_ne_s n hcontra.1

lemma hexChar_ascii (n : Nat) : (hexChar n).toNat < 128 := by
  unfold hexChar
  split
  · rename_i h
    interval_cases n <;> decide
  · split
    · rename_i h1 h2
      interval_cases n <;> decide
    · decide

lemma wordToHex_ascii (w : Nat) :
    (wordToHex w).all (fun c => decide (c.toNat < 128)) = true := by
  simp [wordToHex, hexChar_ascii]

lemma hexOfWords_cons (w : Nat) (rest : List Nat) :
    hexOfWords (w :: rest) = wordToHex w ++ hexOfWords rest := rfl

lemma hexOfWords_ascii (ws : List Nat) :
    (hexOfWords ws).all (fun c => decide (c.toNat < 128)) = true := by
  induction ws with
  | nil => rfl
  | cons w rest ih =>
    rw [hexOfWords_cons, List.all_append, wordToHex_ascii, ih]
    rfl

lemma hmacSha256Hex_ascii (s p : String) : strIsAscii (hmacSha256Hex s p) = true :=
  hexOfWords_ascii _

set_option maxRecDepth 200000 in
/-- C3 counterexample: a header carrying the correct digest WITHOUT the
`sha256=` prefix is accepted (`removeprefix` is a no-op on it, and the
comparison then succeeds), contradicting the claim that such a header is
rejected. -/
theorem claim_C3_counterexample :
    verify_webhook "app-secret"
      [("X-Hub-Signature-256", hmacSha256Hex "app-secret" "callback-body")]
      "callback-body" = .ok true := rfl

/-- C3 (amended): for a fixed app secret and raw body, `verify_webhook`
accepts the header `sha256=` followed by the correct digest; it rejects
(returns false for) any prefixed header whose ASCII digest part differs from
the correct digest (a non-ASCII digest part instead raises `TypeError` in
`hmac.compare_digest`, see C4); and it ALSO accepts a header that carries
the correct digest without the `sha256=` prefix (the prefix strip is a
no-op on a bare hex digest, whose first character is never `s`). -/
theorem claim_C3_amended (secret payload d' : String) (hascii : strIsAscii d' = true)
    (hne : d' ≠ hmacSha256Hex secret payload) :
    verify_webhook secret
      [("X-Hub-Signature-256", "sha256=" ++ hmacSha256Hex secret payload)] payload =
      .ok true ∧
    verify_webhook secret [("X-Hub-Signature-256", "sha256=" ++ d')] payload = .ok false ∧
    verify_webhook secret [("X-Hub-Signature-256", hmacSha256Hex secret payload)] payload =
      .ok true := by
  have hdg := hmacSha256Hex_ascii secret payload
  refine ⟨?_, ?_, ?_⟩
  · show hmacCompareDigest
      (removeprefixPy ("sha256=" ++ hmacSha256Hex secret payload) "sha256=")
      (hmacSha256Hex secret payload) = Except.ok true
    rw [removeprefix_concat]
    simp [hmacCompareDigest, hdg]
  · show hmacCompareDigest (removeprefixPy ("sha256=" ++ d') "sha256=")
      (hmacSha256Hex secret payload) = Except.ok false
    rw [removeprefix_concat]
    simp [hmacCompareDigest, hascii, hdg, hne]
  · show hmacCompareDigest
      (removeprefixPy (hmacSha256Hex secret payload) "sha256=")
      (hmacSha256Hex secret payload) = Except.ok true
    rw [removeprefix_digest]
    simp [hmacCompareDigest, hdg]

set_option maxRecDepth 200000 in
/-- Witness for C3 (amended): concrete secret and payload, with the empty
(ASCII) string as the differing digest. -/
theorem claim_C3_witness :
    verify_webhook "k" [("X-Hub-Signature-256", "sha256=" ++ hmacSha256Hex "k" "x")] "x" =
      .ok true ∧
    verify_webhook "k" [("X-Hub-Signature-256", "sha256=" ++ "")] "x" = .ok false ∧
    verify_webhook "k" [("X-Hub-Signature-256", hmacSha256Hex "k" "x")] "x" = .ok true :=
  claim_C3_amended "k" "x" "" (by decide) (by decide)

/-- C4 counterexample: with no `X-Hub-Signature-256` entry present,
`verify_webhook` raises a `KeyError` instead of returning false. -/
theorem claim_C4_counterexample :
    verify_webhook "app-secret" [] "payload" = .error (.keyError "X-Hub-Signature-256") ∧
    verify_webhook "app-secret" [] "payload" ≠ .ok false := by
  have h1 : verify_webhook "app-secret" [] "payload" =
      .error (.keyError "X-Hub-Signature-256") := rfl
  refine ⟨h1, ?_⟩
  rw [h1]
  simp

/-- C4 (amended): `verify_webhook` raises a `KeyError` when the
`X-Hub-Signature-256` entry is absent from the headers; when the entry is
present and its prefix-stripped value is ASCII (any such value, however
malformed), it returns a boolean and does not raise; when the present
value's prefix-stripped text contains a non-ASCII character,
`hmac.compare_digest` raises a `TypeError`. -/
theorem claim_C4_amended (headers : List (String × String)) (secret payload : String) :
    (dictGet headers "X-Hub-Signature-256" = none →
      verify_webhook secret headers payload = .error (.keyError "X-Hub-Signature-256")) ∧
    (∀ v, dictGet headers "X-Hub-Signature-256" = some v →
      strIsAscii (removeprefixPy v "sha256=") = true →
      ∃ b, verify_webhook secret headers payload = .ok b) ∧
    (∀ v, dictGet headers "X-Hub-Signature-256" = some v →
      strIsAscii (removeprefixPy v "sha256=") = false →
      verify_webhook secret headers payload = .error .typeError) := by
  refine ⟨fun h => ?_, fun v h ha => ?_, fun v h ha => ?_⟩
  · unfold verify_webhook
    rw [h]
  · refine ⟨decide (removeprefixPy v "sha256=" = hmacSha256Hex secret payload), ?_⟩
    unfold verify_webhook
    rw [h]
    simp [hmacCompareDigest, ha, hmacSha256Hex_ascii]
  · unfold verify_webhook
    rw [h]
    simp [hmacCompareDigest, ha]

/-- Witness for C4 (amended): empty headers raise the `KeyError`; a present
header with an arbitrary malformed ASCII value yields a boolean; a present
header with a non-ASCII value raises the `TypeError`. -/
theorem claim_C4_witness :
    verify_webhook "k" [] "p" = .error (.keyError "X-Hub-Signature-256") ∧
    (∃ b, verify_webhook "k" [("X-Hub-Signature-256", "bogus")] "p" = .ok b) ∧
    verify_webhook "k" [("X-Hub-Signature-256", "sígnature")] "p" = .error .typeError :=
  ⟨(claim_C4_amended [] "k" "p").1 rfl,
   (claim_C4_amended [("X-Hub-Signature-256", "bogus")] "k" "p").2.1 "bogus" rfl
     (by decide),
   (claim_C4_amended [("X-Hub-Signature-256", "sígnature")] "k" "p").2.2 "sígnature" rfl
     (by decide)⟩

/-- C7: a verified callback whose first inbound message carries an
interactive object of type `payment` is classified as a payment
confirmation, extracting transaction id, reference id, status and display
number, and no payment-status query is triggered — even when the body also
contains a status entry (`extraStatuses` arbitrary), since the confirmation
guard is checked first and is terminal. -/
theorem claim_C7 (cache dirData : List (String × String)) (secret waba pcfg : String)
    (headers : List (String × String)) (payload : String)
    (txid refid pstatus display : String) (extraStatuses : JVal)
    (hver : verify_webhook secret headers payload = .ok true) :
    handle_webhook_call cache dirData secret waba pcfg headers payload
        (mkConfirmationBody waba txid refid pstatus display extraStatuses) =
      ([], .ok (.paymentConfirmation (.str txid) (.str refid) (.str pstatus)
        (.str display))) := by
  unfold handle_webhook_call mkConfirmationBody
  rw [hver]
  simp [JVal.getItem, JVal.index, JVal.getOpt, JVal.eqStr, JVal.truthy, List.find?,
    Except.bind]

set_option maxRecDepth 200000 in
/-- Witness for C7: a concrete verified confirmation callback that ALSO
contains a status entry matching the status-update guard; the outcome is the
payment confirmation and the event list is empty (no status query). -/
theorem claim_C7_witness :
    handle_webhook_call wCache [] "k" "WABA-1" "pc"
        [("X-Hub-Signature-256", "sha256=" ++ hmacSha256Hex "k" "x")] "x"
        (mkConfirmationBody "WABA-1" "tx-9" "ref-9" "captured" "16315550001"
          (.arr [.obj [("id", .str "s-1"), ("recipient_id", .str "16315550009"),
            ("type", .str "payment"), ("status", .str "success"),
            ("timestamp", .str "1700000000"),
            ("payment", .obj [("reference_id", .str "ref-9")])]])) =
      ([], .ok (.paymentConfirmation (.str "tx-9") (.str "ref-9") (.str "captured")
        (.str "16315550001"))) :=
  claim_C7 wCache [] "k" "WABA-1" "pc"
    [("X-Hub-Signature-256", "sha256=" ++ hmacSha256Hex "k" "x")] "x"
    "tx-9" "ref-9" "captured" "16315550001"
    (.arr [.obj [("id", .str "s-1"), ("recipient_id", .str "16315550009"),
      ("type", .str "payment"), ("status", .str "success"),
      ("timestamp", .str "1700000000"),
      ("payment", .obj [("reference_id", .str "ref-9")])]])
    (by rfl)

/-- Witness for C5 (amended): the concrete empty-items cold-cache run fails,
sends no message, and its event trace is exactly the directory fetch. -/
theorem claim_C5_witness :
    (∀ p, (send_order_details_msg [] [("+1 631-555-0001", "PHID1")] "pc" "digital-goods"
      "16315550001" "16315550002" "ref-1" "body" [] none none none none none none none none
      none none none none).2 ≠ .ok p) ∧
    (∀ pid rcp, NetEvent.messageSend pid rcp ∉
      (send_order_details_msg [] [("+1 631-555-0001", "PHID1")] "pc" "digital-goods"
        "16315550001" "16315550002" "ref-1" "body" [] none none none none none none none
        none none none none none).1) ∧
    (([] : List (String × String)) = [] →
      (send_order_details_msg [] [("+1 631-555-0001", "PHID1")] "pc" "digital-goods"
        "16315550001" "16315550002" "ref-1" "body" [] none none none none none none none
        none none none none none).1 = [NetEvent.directoryFetch]) :=
  claim_C5_amended [] [("+1 631-555-0001", "PHID1")] "pc" "digital-goods" "16315550001"
    "16315550002" "ref-1" "body" [] none none none none none none none none none none none
    none rfl
